/-
Formal model of the decision pipeline of `newcoin_hunter.py`.

Floating-point numbers of the source are modelled as exact rationals (ℚ);
Python's `round(x, n)` (round-half-to-even on the value) is modelled by
`pyRound`.  Python `int`s are modelled as ℤ.  Strings that the source only
carries along (URLs, symbols, reject messages) are modelled as `String`;
the decimal rendering of numbers inside reject messages is abstracted as
the exact rational rendering (`toString`), which agrees with Python on the
integer-valued default configuration thresholds; no claim depends on those
digits.
-/
import Mathlib

/-! ### Python rounding

`round(x)` in Python rounds half to even.  `pyRound0 x` is the integer
Python's 0-digit rounding produces on the exact value `x`; `pyRound n x`
is `round(x, n)`. -/

/-- Python `round` to an integer: nearest integer, halves to the even one. -/
def pyRound0 (x : ℚ) : ℤ :=
  if x - ⌊x⌋ = 1/2 then (if 2 ∣ ⌊x⌋ then ⌊x⌋ else ⌊x⌋ + 1) else round x

/-- Python `round(x, n)`. -/
def pyRound (n : ℕ) (x : ℚ) : ℚ := (pyRound0 (x * 10 ^ n) : ℚ) / 10 ^ n

/-! ### Data model

`Candidate` is the record produced by `row_from_pair`;
`GateConfig` is the threshold dictionary consumed by `pass_gates`. -/

structure Candidate where
  token_symbol : String
  chain : String
  contract_address : Option String
  pair_address : Option String
  price_usd : ℚ
  fdv_usd : ℚ
  lp_usd : ℚ
  volume_24h_usd : ℚ
  unique_traders_24h : ℤ
  buys_24h : ℤ
  sells_24h : ℤ
  chg24_pct : Option ℚ
  dex : String
  trade_url : String
  explorer_url : String
  twitter_url : String
  telegram_url : String
  website_url : String
  age_hours : Option ℚ
  deriving Repr, DecidableEq

structure GateConfig where
  max_age_h : ℚ
  min_lp : ℚ
  max_lp : ℚ
  max_fdv : ℚ
  min_traders_24h : ℤ
  min_vliq : ℚ
  require_social : Bool
  deriving Repr, DecidableEq

/-- Default discovery-pass thresholds (`DISCOVERY` in the source). -/
def DISCOVERY : GateConfig :=
  { max_age_h := 2160, min_lp := 3000, max_lp := 2000000, max_fdv := 20000000,
    min_traders_24h := 4, min_vliq := 0.10, require_social := false }

/-- Default refine-pass thresholds (`REFINE` in the source). -/
def REFINE : GateConfig :=
  { max_age_h := 504, min_lp := 6000, max_lp := 1500000, max_fdv := 12000000,
    min_traders_24h := 8, min_vliq := 0.15, require_social := true }

/-- The volume-to-liquidity ratio `vol/(lp+1e-9) if lp>0 else 0.0`
(lines 112 and 174 of the source). -/
def vliqOf (vol lp : ℚ) : ℚ := if 0 < lp then vol / (lp + 1/1000000000) else 0

/-- `age is not None and age > max_age_h` (line 101). -/
def ageExceeded (age : Option ℚ) (maxAge : ℚ) : Bool :=
  match age with
  | none => false
  | some a => decide (maxAge < a)

/-- `pass_gates(r, cfg)` (lines 99-117): gate checks in source order,
returning pass/fail and the reject message. -/
def pass_gates (r : Candidate) (cfg : GateConfig) : Bool × String :=
  if ageExceeded r.age_hours cfg.max_age_h then
    (false, "age>" ++ toString cfg.max_age_h ++ "h")
  else if ¬ (cfg.min_lp ≤ r.lp_usd ∧ r.lp_usd ≤ cfg.max_lp) then
    (false, "lp$" ++ toString (pyRound0 r.lp_usd) ++ " outside [" ++
      toString cfg.min_lp ++ "," ++ toString cfg.max_lp ++ "]")
  else if 0 < r.fdv_usd ∧ cfg.max_fdv < r.fdv_usd then
    (false, "fdv>" ++ toString cfg.max_fdv)
  else if r.unique_traders_24h < cfg.min_traders_24h then
    (false, "traders24h<" ++ toString cfg.min_traders_24h)
  else if vliqOf r.volume_24h_usd r.lp_usd < cfg.min_vliq then
    (false, "vliq<" ++ toString cfg.min_vliq)
  else if cfg.require_social = true ∧
      r.twitter_url = "" ∧ r.telegram_url = "" ∧ r.website_url = "" then
    (false, "no_socials")
  else
    (true, "")

/-! ### Scorer (`score`, lines 119-130) -/

/-- `min(vol/(lp+1e-9), 5.0)/5.0 if lp>0 else 0.0` (line 122). -/
def vliq_norm (vol lp : ℚ) : ℚ :=
  if 0 < lp then min (vol / (lp + 1/1000000000)) 5 / 5 else 0

/-- `min(traders/1500.0, 1.0)` (line 123). -/
def tnorm (traders : ℤ) : ℚ := min ((traders : ℚ) / 1500) 1

/-- The valuation-desirability tier of the scorer (line 124). -/
def fdv_ok (fdv : ℚ) : ℚ :=
  if 0 < fdv ∧ fdv ≤ 3000000 then 1
  else if fdv ≤ 6000000 then 0.85
  else if fdv ≤ 10000000 then 0.7
  else if fdv ≤ 15000000 then 0.5
  else 0

/-- The age-desirability tier of the scorer (line 125). -/
def age_ok (age : Option ℚ) : ℚ :=
  match age with
  | none => 1
  | some a => if a ≤ 24 then 1 else if a ≤ 72 then 0.75 else if a ≤ 240 then 0.5 else 0.3

/-- The composite score (lines 119-130), with the buy-pressure bonus
`buys + sells >= 10 and buys > max(1, sells)*1.05` and the final
`round(s, 2)`. -/
def score (r : Candidate) : ℚ :=
  let s : ℚ := 100 * (0.46 * vliq_norm r.volume_24h_usd r.lp_usd +
    0.29 * tnorm r.unique_traders_24h + 0.15 * fdv_ok r.fdv_usd +
    0.10 * age_ok r.age_hours)
  let s : ℚ :=
    if 10 ≤ r.buys_24h + r.sells_24h ∧
        ((max 1 r.sells_24h : ℤ) : ℚ) * 1.05 < (r.buys_24h : ℚ) then s + 2 else s
  pyRound 2 s

/-! ### Exit-price calculator (lines 132-177) -/

/-- The stop-loss percentage selected inside `compute_stop_loss`
(lines 134-136): default 0.25, set to 0.22 on the tight condition, then
set to 0.28 on the loose condition, in source order. -/
def sl_pct (vliq : ℚ) (traders : ℤ) : ℚ :=
  let p : ℚ := 0.25
  let p : ℚ := if 0.30 ≤ vliq ∧ 20 ≤ traders then 0.22 else p
  let p : ℚ := if vliq < 0.15 ∨ traders < 8 then 0.28 else p
  p

/-- `compute_stop_loss(price, vliq, traders)` (lines 132-137). -/
def compute_stop_loss (price vliq : ℚ) (traders : ℤ) : ℚ :=
  if price ≤ 0 then 0 else pyRound 12 (price * (1 - sl_pct vliq traders))

/-- The four Fibonacci levels returned by `fib_levels` when `price > 0`.
When `price <= 0` the source returns empty strings for all four, modelled
as `none` at the `Option FibLevels` level. -/
structure FibLevels where
  dn382 : ℚ
  dn618 : ℚ
  up1618 : ℚ
  up2618 : ℚ
  deriving Repr, DecidableEq

/-- `fib_levels(price, chg24_pct)` (lines 139-159).  The Python
`try/except` around `open_ = price / (1.0 + chg24_pct/100.0)` only fires
on a zero divisor (`ZeroDivisionError`), modelled by the explicit test. -/
def fib_levels (price : ℚ) (chg : Option ℚ) : Option FibLevels :=
  if price ≤ 0 then none
  else
    let swing : ℚ :=
      match chg with
      | none => 0.10 * price
      | some c => if 1 + c / 100 = 0 then 0.10 * price else |price - price / (1 + c / 100)|
    some { dn382 := pyRound 12 (max (price - 0.382 * swing) 0),
           dn618 := pyRound 12 (max (price - 0.618 * swing) 0),
           up1618 := pyRound 12 (price + 1.618 * swing),
           up2618 := pyRound 12 (price + 2.618 * swing) }

/-- The exit-price fields attached by `add_exit_prices` (lines 161-177).
Fields the source sets to `""` (unset) are modelled as `none`. -/
structure ExitPrices where
  tp_prices : List (Option ℚ)
  fdv_target_prices : List (Option ℚ)
  stop_loss_price : ℚ
  fib : Option FibLevels
  deriving Repr, DecidableEq

/-- `add_exit_prices(r, tp_multipliers, fdv_targets)` (lines 161-177). -/
def add_exit_prices (r : Candidate) (tps fdvTs : List ℚ) : ExitPrices :=
  { tp_prices := tps.map fun m =>
      if 0 < r.price_usd then some (pyRound 12 (r.price_usd * m)) else none,
    fdv_target_prices :=
      if 0 < r.price_usd ∧ 0 < r.fdv_usd then
        fdvTs.map fun T => some (pyRound 12 (r.price_usd * (T / r.fdv_usd)))
      else fdvTs.map fun _ => none,
    stop_loss_price := compute_stop_loss r.price_usd
      (vliqOf r.volume_24h_usd r.lp_usd) r.unique_traders_24h,
    fib := fib_levels r.price_usd r.chg24_pct }

/-! ### Funnel orchestrator (`run_once`, lines 185-253, and `run`,
lines 255-265; the CSV/HTML writers are external collaborators and are
not part of the return value we model) -/

structure ScoredItem where
  cand : Candidate
  score : ℚ
  exits : ExitPrices
  deriving Repr, DecidableEq

structure RankedItem where
  cand : Candidate
  score : ℚ
  exits : ExitPrices
  rank : ℕ
  deriving Repr, DecidableEq

/-- The comparator of `sorted(items, key=lambda x: x["score"], reverse=True)`:
`a` may come before `b` when `a`'s score is at least `b`'s.  Python's
`sorted` and `List.mergeSort` are both stable, so ties keep input order. -/
def scoreDesc (a b : ScoredItem) : Bool := decide (b.score ≤ a.score)

/-- One funnel pass (`run_once`): partition by `pass_gates`, enrich the
passers with score and exit prices, stable-sort by score descending,
truncate to `target`, and assign ranks `1..N`.  Returns the ranked list
and the rejects with their reject reasons. -/
def run_once (rows : List Candidate) (cfg : GateConfig) (target : ℕ)
    (tps fdvTs : List ℚ) : List RankedItem × List (Candidate × String) :=
  let items : List ScoredItem := rows.filterMap fun r =>
    if (pass_gates r cfg).1 then some ⟨r, score r, add_exit_prices r tps fdvTs⟩ else none
  let rejects : List (Candidate × String) := rows.filterMap fun r =>
    if (pass_gates r cfg).1 then none else some (r, (pass_gates r cfg).2)
  let sorted : List ScoredItem := (items.mergeSort scoreDesc).take target
  let ranked : List RankedItem :=
    sorted.enum.map fun p => ⟨p.2.cand, p.2.score, p.2.exits, p.1 + 1⟩
  (ranked, rejects)

/-- The two-stage orchestration of `run` (lines 263-265): discovery over
the full pool, then refine over `disc if disc else rows`.  The Python
refine pass receives the enriched discovery dicts; gate, score and exit
computations read only the base `Candidate` fields, so the refine input is
modelled as the underlying candidates of the discovery output. -/
def run_funnel (rows : List Candidate) (disc_cfg ref_cfg : GateConfig)
    (target_disc target_ref : ℕ) (tps fdvTs : List ℚ) :
    List RankedItem × List RankedItem :=
  let disc := (run_once rows disc_cfg target_disc tps fdvTs).1
  let refined_input := if disc.isEmpty then rows else disc.map (·.cand)
  (disc, (run_once refined_input ref_cfg target_ref tps fdvTs).1)

/-! ### Record normalizer (`pick_created_ms`, `age_hours_from_ms`,
`dex_name`, `explorer_url`, `socials`, `row_from_pair`, lines 15-97)

Raw snapshot fields are JSON values; a field can be absent (`null`), a
number, or a string.  Python's `float()` succeeds on numbers and on
numeric strings and raises otherwise; a `PyVal.str` carries the result of
that parse (`none` when the string is not numeric).  Fallible Python
expressions are modelled in `Except Unit`. -/

inductive PyVal where
  | null : PyVal
  | num : ℚ → PyVal
  | str : String → Option ℚ → PyVal
  deriving Repr, DecidableEq

/-- Python truthiness of a JSON value. -/
def truthy : PyVal → Bool
  | .null => false
  | .num q => decide (q ≠ 0)
  | .str s _ => decide (s ≠ "")

/-- Python `float(v)`: numbers pass through, numeric strings parse,
anything else raises. -/
def pyFloat : PyVal → Except Unit ℚ
  | .null => .error ()
  | .num q => .ok q
  | .str _ (some q) => .ok q
  | .str _ none => .error ()

/-- Python `float(v or 0.0)`. -/
def pyFloatOrZero (v : PyVal) : Except Unit ℚ :=
  if truthy v then pyFloat v else .ok 0

/-- Python `int(v)`: truncates numbers toward zero; integer-valued strings
parse, other strings raise. -/
def pyInt : PyVal → Except Unit ℤ
  | .null => .error ()
  | .num q => .ok (if 0 ≤ q then ⌊q⌋ else ⌈q⌉)
  | .str _ (some q) => if q.den = 1 then .ok q.num else .error ()
  | .str _ none => .error ()

/-- Python `int(d.get(k, 0))`: the absent key defaults to `0`. -/
def pyIntDefault0 (v : PyVal) : Except Unit ℤ :=
  match v with
  | .null => .ok 0
  | v => pyInt v

/-- One raw pair snapshot, flattened to the nested fields the normalizer
reads.  `info_socials` holds the `(type, url)` of each social entry after
the pythonic `(s.get("type") or "")` / `(s.get("url") or "")` defaulting;
`info_websites` holds each website entry's `url or ""`. -/
structure RawPair where
  base_symbol : Option String
  base_address : Option String
  pairAddress : Option String
  chainId : Option String
  dexId : Option String
  url : Option String
  pairCreatedAt : PyVal
  createdAt : PyVal
  info_createdAt : PyVal
  info_listedAt : PyVal
  info_socials : List (String × String)
  info_websites : List String
  liq_createdAt : PyVal
  liq_usd : PyVal
  txns_buys : PyVal
  txns_sells : PyVal
  vol_h24 : PyVal
  chg_h24 : PyVal
  priceUsd : PyVal
  fdv : PyVal
  deriving Repr, DecidableEq

/-- The all-absent raw pair. -/
def emptyRawPair : RawPair :=
  { base_symbol := none, base_address := none, pairAddress := none,
    chainId := none, dexId := none, url := none,
    pairCreatedAt := .null, createdAt := .null, info_createdAt := .null,
    info_listedAt := .null, info_socials := [], info_websites := [],
    liq_createdAt := .null, liq_usd := .null, txns_buys := .null,
    txns_sells := .null, vol_h24 := .null, chg_h24 := .null,
    priceUsd := .null, fdv := .null }

/-- `pick_created_ms(pair)` (lines 15-24): first truthy creation field in
the fixed resolution order, converted with `float()` (which can raise). -/
def pick_created_ms (p : RawPair) : Except Unit (Option ℚ) :=
  if truthy p.pairCreatedAt then (pyFloat p.pairCreatedAt).map some
  else if truthy p.createdAt then (pyFloat p.createdAt).map some
  else if truthy p.info_createdAt then (pyFloat p.info_createdAt).map some
  else if truthy p.info_listedAt then (pyFloat p.info_listedAt).map some
  else if truthy p.liq_createdAt then (pyFloat p.liq_createdAt).map some
  else .ok none

/-- `age_hours_from_ms(ms)` (lines 26-30), with the current clock passed
explicitly as `now_ms`. -/
def age_hours_from_ms (now_ms : ℚ) : Option ℚ → Option ℚ
  | none => none
  | some ms =>
    let age_h := (now_ms - ms) / 3600000
    if 24 * 365 * 5 < age_h then none else some (max 0 age_h)

/-- Python's `str.lower()`, character by character. -/
def pyLower (s : String) : String := ⟨s.data.map Char.toLower⟩

/-- Substring test on character lists. -/
def infixOf : List Char → List Char → Bool
  | sub, [] => sub.isEmpty
  | sub, c :: rest => sub.isPrefixOf (c :: rest) || infixOf sub rest

/-- Substring test used to model Python's `"x" in s`. -/
def containsSub (s sub : String) : Bool := infixOf sub.data s.data

/-- `dex_name(dex_id, chain_id)` (lines 32-40). -/
def dex_name (dexId chainId : Option String) : String :=
  let d := pyLower (dexId.getD "")
  let c := pyLower (chainId.getD "")
  if d = "raydium" then "Raydium (Solana)"
  else if d = "orca" then "Orca (Solana)"
  else if d = "meteora" then "Meteora (Solana)"
  else if d = "lifinity" then "Lifinity (Solana)"
  else if d = "phoenix" then "Phoenix (Solana)"
  else if d = "uniswapv3" then "Uniswap v3"
  else if d = "aerodrome" then "Aerodrome (Base)"
  else if d = "baseswap" then "BaseSwap (Base)"
  else if d = "pancakeswap-v3" then "PancakeSwap v3"
  else if containsSub c "solana" then "Solana DEX"
  else if containsSub c "base" then "Base DEX"
  else if containsSub c "eth" then "Ethereum DEX"
  else "DEX"

/-- `explorer_url(chain_id, addr)` (lines 42-53). -/
def explorer_url (chainId : Option String) (addr : Option String) : String :=
  match addr with
  | none => ""
  | some a =>
    if a = "" then "" else
    let c := pyLower (chainId.getD "")
    if containsSub c "solana" then "https://solscan.io/token/" ++ a
    else if containsSub c "base" then "https://basescan.org/token/" ++ a
    else if containsSub c "eth" then "https://etherscan.io/token/" ++ a
    else if containsSub c "bsc" then "https://bscscan.com/token/" ++ a
    else if containsSub c "arbitrum" then "https://arbiscan.io/token/" ++ a
    else if containsSub c "polygon" then "https://polygonscan.com/token/" ++ a
    else if containsSub c "optimism" then "https://optimistic.etherscan.io/token/" ++ a
    else if containsSub c "avax" ∨ containsSub c "avalanche" then "https://snowtrace.io/token/" ++ a
    else ""

/-- `socials(info)` (lines 55-64): first twitter url and first telegram
url, where "first" means the first entry while the slot is still falsy. -/
def socialsOf (entries : List (String × String)) : String × String :=
  entries.foldl
    (fun acc e =>
      let t := pyLower e.1
      let tw := if t = "twitter" ∧ acc.1 = "" then e.2 else acc.1
      let tg := if t = "telegram" ∧ acc.2 = "" then e.2 else acc.2
      (tw, tg))
    ("", "")

/-- The `chg24_pct` computation of line 91:
`float(chg24) if chg24 not in (None, "") else None`. -/
def chgOf (v : PyVal) : Except Unit (Option ℚ) :=
  match v with
  | .null => .ok none
  | .num q => .ok (some q)
  | .str s p => if s = "" then .ok none else (pyFloat (.str s p)).map some

/-- `row_from_pair(p)` (lines 66-97), in the source's evaluation order;
any `float()`/`int()` failure propagates as `.error`. -/
def row_from_pair (now_ms : ℚ) (p : RawPair) : Except Unit Candidate := do
  let buys ← pyIntDefault0 p.txns_buys
  let sells ← pyIntDefault0 p.txns_sells
  let ms ← pick_created_ms p
  let age := age_hours_from_ms now_ms ms
  let price ← pyFloatOrZero p.priceUsd
  let fdv ← pyFloatOrZero p.fdv
  let lp ← pyFloatOrZero p.liq_usd
  let vol ← pyFloatOrZero p.vol_h24
  let chg ← chgOf p.chg_h24
  Except.ok
    { token_symbol := p.base_symbol.getD "",
      chain := p.chainId.getD "",
      contract_address := p.base_address,
      pair_address := p.pairAddress,
      price_usd := price,
      fdv_usd := fdv,
      lp_usd := lp,
      volume_24h_usd := vol,
      unique_traders_24h := buys + sells,
      buys_24h := buys,
      sells_24h := sells,
      chg24_pct := chg,
      dex := dex_name p.dexId p.chainId,
      trade_url := p.url.getD "",
      explorer_url := explorer_url p.chainId p.base_address,
      twitter_url := (socialsOf p.info_socials).1,
      telegram_url := (socialsOf p.info_socials).2,
      website_url := p.info_websites.headD "",
      age_hours := age.map (pyRound 2) }

/-! ### Arithmetic facts about Python rounding -/

theorem floor_le_pyRound0 (x : ℚ) : ⌊x⌋ ≤ pyRound0 x := by
  unfold pyRound0
  split_ifs with h h2
  · exact le_refl _
  · omega
  · rw [round_eq]
    exact Int.floor_le_floor (by linarith)

theorem pyRound0_le_floor_add_one (x : ℚ) : pyRound0 x ≤ ⌊x⌋ + 1 := by
  unfold pyRound0
  split_ifs with h h2
  · omega
  · exact le_refl _
  · rw [round_eq]
    have : (⌊x⌋ + 1 : ℤ) = ⌊x + 1⌋ := by rw [Int.floor_add_one]
    rw [this]
    exact Int.floor_le_floor (by linarith)

theorem pyRound0_le (x : ℚ) : (pyRound0 x : ℚ) ≤ x + 1/2 := by
  unfold pyRound0
  split_ifs with h h2
  · have := Int.floor_le x
    linarith
  · push_cast
    linarith
  · rw [round_eq]
    calc ((⌊x + 1/2⌋ : ℤ) : ℚ) ≤ x + 1/2 := Int.floor_le _

theorem pyRound0_mono {x y : ℚ} (h : x ≤ y) : pyRound0 x ≤ pyRound0 y := by
  rcases lt_or_le ⌊x⌋ ⌊y⌋ with hf | hf
  · calc pyRound0 x ≤ ⌊x⌋ + 1 := pyRound0_le_floor_add_one x
      _ ≤ ⌊y⌋ := by omega
      _ ≤ pyRound0 y := floor_le_pyRound0 y
  · have heq : ⌊x⌋ = ⌊y⌋ := le_antisymm (Int.floor_le_floor h) hf
    unfold pyRound0
    by_cases hx : x - ⌊x⌋ = 1/2 <;> by_cases hy : y - ⌊y⌋ = 1/2
    · have hx2 := hx
      rw [heq] at hx2
      have hxy : x = y := by linarith
      rw [hxy]
    · simp only [if_pos hx, if_neg hy]
      rw [heq] at hx
      have hry : ⌊x⌋ + 1 ≤ round y := by
        rw [heq, round_eq]
        apply Int.le_floor.2
        push_cast
        linarith
      split_ifs with he
      · omega
      · omega
    · simp only [if_neg hx, if_pos hy]
      have hxlt : x < (⌊x⌋ : ℚ) + 1/2 := by
        have hle : x ≤ (⌊x⌋ : ℚ) + 1/2 := by
          rw [heq]
          linarith
        rcases lt_or_eq_of_le hle with hlt | hcon
        · exact hlt
        · exact absurd (by linarith) hx
      have hrx : round x ≤ ⌊x⌋ := by
        rw [round_eq]
        have : ⌊x + 1/2⌋ < ⌊x⌋ + 1 := by
          apply Int.floor_lt.2
          push_cast
          linarith
        omega
      split_ifs with he
      · omega
      · omega
    · simp only [if_neg hx, if_neg hy, round_eq]
      exact Int.floor_le_floor (by linarith)

theorem pyRound_mono (n : ℕ) {x y : ℚ} (h : x ≤ y) : pyRound n x ≤ pyRound n y := by
  unfold pyRound
  have hp : (0 : ℚ) < 10 ^ n := by positivity
  apply (div_le_div_iff_of_pos_right hp).2
  exact_mod_cast pyRound0_mono (mul_le_mul_of_nonneg_right h (le_of_lt hp))

theorem pyRound_le (n : ℕ) (x : ℚ) : pyRound n x ≤ x + (1/2) / 10 ^ n := by
  unfold pyRound
  have hp : (0 : ℚ) < 10 ^ n := by positivity
  calc (pyRound0 (x * 10 ^ n) : ℚ) / 10 ^ n
      ≤ (x * 10 ^ n + 1/2) / 10 ^ n := by
        apply (div_le_div_iff_of_pos_right hp).2
        exact pyRound0_le _
    _ = x + (1/2) / 10 ^ n := by
        rw [add_div, mul_div_cancel_right₀ _ (ne_of_gt hp)]

/-! ### Gate evaluator facts -/

theorem ageExceeded_eq_false_iff (age : Option ℚ) (m : ℚ) :
    ageExceeded age m = false ↔
      (age = none ∨ ∃ a, age = some a ∧ a ≤ m) := by
  cases age with
  | none => simp [ageExceeded]
  | some a => simp [ageExceeded, not_lt]

theorem pass_gates_fst_iff (r : Candidate) (cfg : GateConfig) :
    (pass_gates r cfg).1 = true ↔
      (ageExceeded r.age_hours cfg.max_age_h = false ∧
       (cfg.min_lp ≤ r.lp_usd ∧ r.lp_usd ≤ cfg.max_lp) ∧
       ¬ (0 < r.fdv_usd ∧ cfg.max_fdv < r.fdv_usd) ∧
       ¬ (r.unique_traders_24h < cfg.min_traders_24h) ∧
       ¬ (vliqOf r.volume_24h_usd r.lp_usd < cfg.min_vliq) ∧
       ¬ (cfg.require_social = true ∧
          r.twitter_url = "" ∧ r.telegram_url = "" ∧ r.website_url = "")) := by
  unfold pass_gates
  split_ifs with h1 h2 h3 h4 h5 h6 <;> simp_all

theorem pass_gates_snd_of_pass (r : Candidate) (cfg : GateConfig)
    (h : (pass_gates r cfg).1 = true) : (pass_gates r cfg).2 = "" := by
  unfold pass_gates at h ⊢
  split_ifs at h ⊢ <;> simp_all

/-- C1: for every candidate (whose liquidity is non-negative, the
normalizer's invariant) and every gate configuration, `pass_gates` passes
iff liquidity lies in `[min_lp, max_lp]`, age is null or at most
`max_age_h`, valuation is 0 (unknown) or at most `max_fdv`, the 24h trader
count is at least `min_traders_24h`, the volume-to-liquidity ratio (0 when
liquidity is 0, else `vol/(lp+1e-9)`) is at least `min_vliq`, and the
social requirement is off or some social/web URL is non-empty; and a
passing candidate's reject reason is the empty string. -/
theorem pass_gates_claim (r : Candidate) (cfg : GateConfig)
    (hlp : 0 ≤ r.lp_usd) :
    ((pass_gates r cfg).1 = true ↔
      ((cfg.min_lp ≤ r.lp_usd ∧ r.lp_usd ≤ cfg.max_lp) ∧
       (r.age_hours = none ∨ ∃ a, r.age_hours = some a ∧ a ≤ cfg.max_age_h) ∧
       (r.fdv_usd ≤ 0 ∨ r.fdv_usd ≤ cfg.max_fdv) ∧
       cfg.min_traders_24h ≤ r.unique_traders_24h ∧
       cfg.min_vliq ≤ (if r.lp_usd = 0 then 0
         else r.volume_24h_usd / (r.lp_usd + 1/1000000000)) ∧
       (cfg.require_social = false ∨
        (r.twitter_url ≠ "" ∨ r.telegram_url ≠ "" ∨ r.website_url ≠ "")))) ∧
    ((pass_gates r cfg).1 = true → (pass_gates r cfg).2 = "") := by
  have hvq : vliqOf r.volume_24h_usd r.lp_usd =
      (if r.lp_usd = 0 then 0
       else r.volume_24h_usd / (r.lp_usd + 1/1000000000)) := by
    unfold vliqOf
    rcases eq_or_lt_of_le hlp with h0 | h0
    · simp [← h0]
    · rw [if_pos h0, if_neg (ne_of_gt h0)]
  refine ⟨?_, pass_gates_snd_of_pass r cfg⟩
  rw [pass_gates_fst_iff, ageExceeded_eq_false_iff, hvq]
  constructor
  · rintro ⟨a1, a2, a3, a4, a5, a6⟩
    refine ⟨a2, a1, ?_, not_lt.1 a4, not_lt.1 a5, ?_⟩
    · rcases le_or_lt r.fdv_usd 0 with h | h
      · exact Or.inl h
      · push_neg at a3
        exact Or.inr (a3 h)
    · cases hb : cfg.require_social with
      | false => exact Or.inl rfl
      | true =>
        right
        by_contra hc
        push_neg at hc
        exact a6 ⟨hb, hc.1, hc.2.1, hc.2.2⟩
  · rintro ⟨b1, b2, b3, b4, b5, b6⟩
    refine ⟨b2, b1, ?_, not_lt.2 b4, not_lt.2 b5, ?_⟩
    · rintro ⟨hpos, hgt⟩
      rcases b3 with h | h
      · linarith
      · linarith
    · rintro ⟨hreq, ht, hg, hw⟩
      rcases b6 with h | h
      · rw [hreq] at h
        cases h
      · rcases h with h | h | h
        · exact h ht
        · exact h hg
        · exact h hw

/-- The candidate of spec Scenario A/B: liquidity 5000, valuation 0
(unknown), 10 traders, volume 2000, age 1h, no social links. -/
def scenarioCand : Candidate :=
  { token_symbol := "TKN", chain := "base", contract_address := none,
    pair_address := none, price_usd := 1, fdv_usd := 0, lp_usd := 5000,
    volume_24h_usd := 2000, unique_traders_24h := 10, buys_24h := 5,
    sells_24h := 5, chg24_pct := none, dex := "DEX", trade_url := "",
    explorer_url := "", twitter_url := "", telegram_url := "",
    website_url := "", age_hours := some 1 }

/-- Witness for `pass_gates_claim` at the Scenario A candidate and the
default discovery config. -/
theorem pass_gates_claim_witness :
    (pass_gates scenarioCand DISCOVERY).2 = "" := by
  have h := pass_gates_claim scenarioCand DISCOVERY (by norm_num [scenarioCand])
  refine h.2 (h.1.mpr ?_)
  refine ⟨⟨?_, ?_⟩, Or.inr ⟨1, rfl, ?_⟩, Or.inl ?_, ?_, ?_, Or.inl rfl⟩ <;>
    norm_num [scenarioCand, DISCOVERY]

/-! ### Valuation tier (claim C4) -/

/-- C4 counterexample: the claim says a valuation of 0 (unknown) is
treated as tier 1.0, but the code's first guard `0 < fdv <= 3M` excludes
0, which then falls into the `fdv <= 6M` tier 0.85. -/
theorem fdv_ok_zero_counterexample : fdv_ok 0 = 0.85 ∧ (0.85 : ℚ) ≠ 1 := by
  constructor
  · norm_num [fdv_ok]
  · norm_num

/-- C4 amended: the five valuation tiers as claimed, except that a
valuation of 0 (unknown) lands in the 0.85 tier, not the 1.0 tier. -/
theorem fdv_ok_tiers :
    fdv_ok 0 = 0.85 ∧
    (∀ v : ℚ, 0 < v → v ≤ 3000000 → fdv_ok v = 1) ∧
    (∀ v : ℚ, 3000000 < v → v ≤ 6000000 → fdv_ok v = 0.85) ∧
    (∀ v : ℚ, 6000000 < v → v ≤ 10000000 → fdv_ok v = 0.7) ∧
    (∀ v : ℚ, 10000000 < v → v ≤ 15000000 → fdv_ok v = 0.5) ∧
    (∀ v : ℚ, 15000000 < v → fdv_ok v = 0) := by
  refine ⟨by norm_num [fdv_ok], ?_, ?_, ?_, ?_, ?_⟩
  · intro v h1 h2
    unfold fdv_ok
    rw [if_pos ⟨h1, h2⟩]
  · intro v h1 h2
    unfold fdv_ok
    rw [if_neg (by rintro ⟨_, h⟩; linarith), if_pos h2]
  · intro v h1 h2
    unfold fdv_ok
    rw [if_neg (by rintro ⟨_, h⟩; linarith), if_neg (by linarith), if_pos h2]
  · intro v h1 h2
    unfold fdv_ok
    rw [if_neg (by rintro ⟨_, h⟩; linarith), if_neg (by linarith),
      if_neg (by linarith), if_pos h2]
  · intro v h1
    unfold fdv_ok
    rw [if_neg (by rintro ⟨_, h⟩; linarith), if_neg (by linarith),
      if_neg (by linarith), if_neg (by linarith)]

/-- Witness for `fdv_ok_tiers` at one point per tier. -/
theorem fdv_ok_tiers_witness :
    fdv_ok 2000000 = 1 ∧ fdv_ok 4000000 = 0.85 ∧ fdv_ok 8000000 = 0.7 ∧
    fdv_ok 12000000 = 0.5 ∧ fdv_ok 16000000 = 0 :=
  ⟨fdv_ok_tiers.2.1 2000000 (by norm_num) (by norm_num),
   fdv_ok_tiers.2.2.1 4000000 (by norm_num) (by norm_num),
   fdv_ok_tiers.2.2.2.1 8000000 (by norm_num) (by norm_num),
   fdv_ok_tiers.2.2.2.2.1 12000000 (by norm_num) (by norm_num),
   fdv_ok_tiers.2.2.2.2.2 16000000 (by norm_num)⟩

/-! ### Stop-loss (claims C6 and C7) -/

/-- C7: the stop-loss cut is 0.22 exactly on the tight condition, 0.28
exactly on the loose condition, 0.25 otherwise; the two conditions are
mutually exclusive, so the evaluation order inside `compute_stop_loss`
(the claim reads it tight-after-loose, the source writes loose-after-tight)
cannot change the result. -/
theorem sl_pct_claim (vliq : ℚ) (traders : ℤ) :
    sl_pct vliq traders =
      (if 0.30 ≤ vliq ∧ 20 ≤ traders then 0.22
       else if vliq < 0.15 ∨ traders < 8 then 0.28
       else 0.25) ∧
    ¬ ((0.30 ≤ vliq ∧ 20 ≤ traders) ∧ (vliq < 0.15 ∨ traders < 8)) := by
  have hdisj : ¬ ((0.30 ≤ vliq ∧ 20 ≤ traders) ∧ (vliq < 0.15 ∨ traders < 8)) := by
    rintro ⟨⟨hv, ht⟩, l | l⟩
    · linarith
    · omega
  refine ⟨?_, hdisj⟩
  by_cases ht : (0.30:ℚ) ≤ vliq ∧ 20 ≤ traders
  · have hl : ¬ (vliq < 0.15 ∨ traders < 8) := fun l => hdisj ⟨ht, l⟩
    simp [sl_pct, ht, hl]
  · by_cases hl : vliq < 0.15 ∨ traders < 8
    · simp [sl_pct, ht, hl]
    · simp [sl_pct, ht, hl]

/-- C6 counterexample: at price 1e-12 (and the default 25% cut) the
12-decimal rounding brings the stop-loss back up to the price itself, so
the stop-loss is not strictly below a positive price. -/
theorem compute_stop_loss_counterexample :
    (0 : ℚ) < 1/1000000000000 ∧
    ¬ (compute_stop_loss (1/1000000000000) (1/5) 10 < 1/1000000000000) := by
  have h : compute_stop_loss (1/1000000000000) (1/5) 10 = 1/1000000000000 := by
    unfold compute_stop_loss sl_pct pyRound pyRound0
    norm_num [round_eq]
  constructor
  · norm_num
  · rw [h]
    exact lt_irrefl _

/-- C6 amended: the stop-loss equals 0 whenever price ≤ 0, and is
strictly below the price whenever price ≥ 3e-12; at smaller positive
prices the rounding to 12 decimals can return the price itself (see the
counterexample). -/
theorem compute_stop_loss_amended (price vliq : ℚ) (traders : ℤ) :
    (price ≤ 0 → compute_stop_loss price vliq traders = 0) ∧
    (3/1000000000000 ≤ price → compute_stop_loss price vliq traders < price) := by
  constructor
  · intro h
    simp [compute_stop_loss, h]
  · intro h
    have hpos : (0:ℚ) < price := lt_of_lt_of_le (by norm_num) h
    have hsl_le : sl_pct vliq traders ≤ 0.28 := by
      unfold sl_pct
      split_ifs <;> norm_num
    have hsl_ge : (0.22 : ℚ) ≤ sl_pct vliq traders := by
      unfold sl_pct
      split_ifs <;> norm_num
    rw [compute_stop_loss, if_neg (not_le.2 hpos)]
    calc pyRound 12 (price * (1 - sl_pct vliq traders))
        ≤ price * (1 - sl_pct vliq traders) + (1/2)/10^12 := pyRound_le 12 _
      _ < price := by
          nlinarith [mul_le_mul_of_nonneg_left hsl_ge hpos.le,
            mul_le_mul_of_nonneg_right h (show (0:ℚ) ≤ 0.22 by norm_num)]

/-- Witness for `compute_stop_loss_amended` at price 1. -/
theorem compute_stop_loss_amended_witness :
    compute_stop_loss 1 (1/5) 10 < 1 :=
  (compute_stop_loss_amended 1 (1/5) 10).2 (by norm_num)

/-! ### Fibonacci levels (claim C8) -/

theorem fib_levels_one_none :
    fib_levels 1 none =
      some { dn382 := 9618/10000, dn618 := 9382/10000,
             up1618 := 11618/10000, up2618 := 12618/10000 } := by
  unfold fib_levels pyRound pyRound0
  norm_num [round_eq]

/-- C8 counterexample: at price 1 with unknown 24h change, the 0.382
down-level is 1 − 0.382·0.1 = 0.9618, not the claimed 0.962. -/
theorem fib_levels_dn382_counterexample :
    (fib_levels 1 none).map FibLevels.dn382 ≠ some (962/1000) := by
  rw [fib_levels_one_none]
  intro h
  have := Option.some.inj h
  norm_num at this

/-- C8 amended: at price 1 with unknown 24h change the default 10% swing
gives dn382 = 0.9618 (not 0.962), dn618 = 0.9382, up1618 = 1.1618,
up2618 = 1.2618. -/
theorem fib_levels_default_swing :
    fib_levels 1 none =
      some { dn382 := 0.9618, dn618 := 0.9382,
             up1618 := 1.1618, up2618 := 1.2618 } := by
  rw [fib_levels_one_none]
  norm_num

/-! ### Scenario A/B (claim C3) -/

theorem pass_gates_refine_scenario :
    pass_gates scenarioCand REFINE = (false, "lp$5000 outside [6000,1500000]") := by
  have e : pyRound0 scenarioCand.lp_usd = 5000 := by
    norm_num [scenarioCand, pyRound0, round_eq]
  unfold pass_gates
  rw [if_neg, if_pos]
  · rw [e]
    rfl
  · norm_num [scenarioCand, REFINE]
  · norm_num [scenarioCand, REFINE, ageExceeded]

/-- C3 counterexample: under the refine config the Scenario B candidate is
rejected by the liquidity gate (min_lp 6000 > 5000), which fires before
the social gate, so the reason is not "no_socials". -/
theorem scenario_refine_reason_counterexample :
    (pass_gates scenarioCand REFINE).2 ≠ "no_socials" := by
  rw [pass_gates_refine_scenario]
  decide

/-- C3 amended: the Scenario A candidate passes the discovery gate; under
the refine config it is rejected, but with the liquidity-bound reason
"lp$5000 outside [6000,1500000]" (the liquidity gate fires before the
social gate), not "no_socials". -/
theorem scenario_gate_claim :
    pass_gates scenarioCand DISCOVERY = (true, "") ∧
    (pass_gates scenarioCand REFINE).1 = false ∧
    (pass_gates scenarioCand REFINE).2 = "lp$5000 outside [6000,1500000]" := by
  refine ⟨?_, by rw [pass_gates_refine_scenario], by rw [pass_gates_refine_scenario]⟩
  unfold pass_gates
  rw [if_neg, if_neg, if_neg, if_neg, if_neg, if_neg] <;>
    norm_num [scenarioCand, DISCOVERY, ageExceeded, vliqOf]

/-! ### Score monotonicity (claim C5) -/

/-- Twin of `cexC5b` differing only in the trade counts: 20 buys, 19
sells, 39 traders. -/
def cexC5a : Candidate :=
  { token_symbol := "A", chain := "base", contract_address := none,
    pair_address := none, price_usd := 1, fdv_usd := 0, lp_usd := 1000,
    volume_24h_usd := 0, unique_traders_24h := 39, buys_24h := 20,
    sells_24h := 19, chg24_pct := none, dex := "DEX", trade_url := "",
    explorer_url := "", twitter_url := "", telegram_url := "",
    website_url := "", age_hours := none }

/-- Twin of `cexC5a` differing only in the trade counts: 20 buys, 20
sells, 40 traders. -/
def cexC5b : Candidate :=
  { token_symbol := "A", chain := "base", contract_address := none,
    pair_address := none, price_usd := 1, fdv_usd := 0, lp_usd := 1000,
    volume_24h_usd := 0, unique_traders_24h := 40, buys_24h := 20,
    sells_24h := 20, chg24_pct := none, dex := "DEX", trade_url := "",
    explorer_url := "", twitter_url := "", telegram_url := "",
    website_url := "", age_hours := none }

/-- C5 counterexample: two candidates identical in every scorer input
except the 24h trade counts, both consistent (`traders = buys + sells`);
the one with MORE unique traders (40 vs 39) scores LOWER (23.52 vs 25.5),
because the extra sell drops the buy-pressure bonus. -/
theorem score_not_monotone_counterexample :
    cexC5a.unique_traders_24h < cexC5b.unique_traders_24h ∧
    cexC5a.unique_traders_24h = cexC5a.buys_24h + cexC5a.sells_24h ∧
    cexC5b.unique_traders_24h = cexC5b.buys_24h + cexC5b.sells_24h ∧
    cexC5a.volume_24h_usd = cexC5b.volume_24h_usd ∧
    cexC5a.lp_usd = cexC5b.lp_usd ∧
    cexC5a.fdv_usd = cexC5b.fdv_usd ∧
    cexC5a.age_hours = cexC5b.age_hours ∧
    score cexC5b < score cexC5a := by
  refine ⟨by norm_num [cexC5a, cexC5b], rfl, rfl, rfl, rfl, rfl, rfl, ?_⟩
  have ha : score cexC5a = 255/10 := by
    norm_num [score, cexC5a, vliq_norm, tnorm, fdv_ok, age_ok, pyRound,
      pyRound0, round_eq, min_def, max_def]
  have hb : score cexC5b = 2352/100 := by
    norm_num [score, cexC5b, vliq_norm, tnorm, fdv_ok, age_ok, pyRound,
      pyRound0, round_eq, min_def, max_def]
  rw [ha, hb]
  norm_num

/-- C5 amended: the score is monotonically non-decreasing in 24h volume
(liquidity and everything else fixed) and in the `unique_traders_24h`
input with the buy/sell counts held fixed; varying a consistent
`buys + sells` instead can decrease the score through the buy-pressure
bonus (see the counterexample). -/
theorem score_monotone_vol_traders :
    (∀ (r : Candidate) (v1 v2 : ℚ), v1 ≤ v2 →
      score { r with volume_24h_usd := v1 } ≤ score { r with volume_24h_usd := v2 }) ∧
    (∀ (r : Candidate) (t1 t2 : ℤ), t1 ≤ t2 →
      score { r with unique_traders_24h := t1 } ≤
        score { r with unique_traders_24h := t2 }) := by
  constructor
  · intro r v1 v2 h
    have hv : vliq_norm v1 r.lp_usd ≤ vliq_norm v2 r.lp_usd := by
      unfold vliq_norm
      split_ifs with hlp
      · have hc : (0:ℚ) < r.lp_usd + 1/1000000000 := by linarith
        have h1 : v1 / (r.lp_usd + 1/1000000000) ≤ v2 / (r.lp_usd + 1/1000000000) :=
          (div_le_div_iff_of_pos_right hc).2 h
        have h2 := min_le_min h1 (le_refl (5:ℚ))
        linarith
      · exact le_refl _
    simp only [score]
    apply pyRound_mono
    split_ifs with hb
    · linarith
    · linarith
  · intro r t1 t2 h
    have ht : tnorm t1 ≤ tnorm t2 := by
      unfold tnorm
      have h1 : ((t1 : ℚ)) / 1500 ≤ ((t2 : ℚ)) / 1500 := by
        have : (t1 : ℚ) ≤ (t2 : ℚ) := by exact_mod_cast h
        linarith
      have h2 := min_le_min h1 (le_refl (1:ℚ))
      linarith
    simp only [score]
    apply pyRound_mono
    split_ifs with hb
    · linarith
    · linarith

/-- Witness for `score_monotone_vol_traders` at concrete inputs. -/
theorem score_monotone_vol_traders_witness :
    score { scenarioCand with volume_24h_usd := 1000 } ≤
      score { scenarioCand with volume_24h_usd := 2000 } ∧
    score { scenarioCand with unique_traders_24h := 5 } ≤
      score { scenarioCand with unique_traders_24h := 10 } :=
  ⟨score_monotone_vol_traders.1 scenarioCand 1000 2000 (by norm_num),
   score_monotone_vol_traders.2 scenarioCand 5 10 (by norm_num)⟩

/-! ### One funnel pass (claim C2) -/

/-- The gate-passers of a pool, in input order. -/
def passers (rows : List Candidate) (cfg : GateConfig) : List Candidate :=
  rows.filter fun r => (pass_gates r cfg).1

/-- Score-descending comparator at the `Candidate` level. -/
def scoreDescC (a b : Candidate) : Bool := decide (score b ≤ score a)

theorem scoreDescC_trans (a b c : Candidate) :
    scoreDescC a b = true → scoreDescC b c = true → scoreDescC a c = true := by
  unfold scoreDescC
  intro h1 h2
  rw [decide_eq_true_eq] at *
  linarith

theorem scoreDescC_total (a b : Candidate) :
    (scoreDescC a b || scoreDescC b a) = true := by
  unfold scoreDescC
  rcases le_total (score b) (score a) with h | h <;> simp [h]

theorem items_map_cand (rows : List Candidate) (cfg : GateConfig) (tps fdvTs : List ℚ) :
    (rows.filterMap fun r => if (pass_gates r cfg).1 then
        some (⟨r, score r, add_exit_prices r tps fdvTs⟩ : ScoredItem) else none).map
      ScoredItem.cand = passers rows cfg := by
  unfold passers
  induction rows with
  | nil => rfl
  | cons a l ih =>
    by_cases h : (pass_gates a cfg).1 <;>
      simp [List.filterMap_cons, List.filter_cons, h, ih]

theorem items_score (rows : List Candidate) (cfg : GateConfig) (tps fdvTs : List ℚ) :
    ∀ x ∈ (rows.filterMap fun r => if (pass_gates r cfg).1 then
        some (⟨r, score r, add_exit_prices r tps fdvTs⟩ : ScoredItem) else none),
      x.score = score x.cand := by
  intro x hx
  rcases List.mem_filterMap.1 hx with ⟨a, _, ha⟩
  by_cases h : (pass_gates a cfg).1
  · rw [if_pos h] at ha
    rw [← Option.some.inj ha]
  · rw [if_neg h] at ha
    cases ha

theorem rejects_eq (rows : List Candidate) (cfg : GateConfig) :
    (rows.filterMap fun r =>
        if (pass_gates r cfg).1 then none else some (r, (pass_gates r cfg).2)) =
      (rows.filter fun r => !(pass_gates r cfg).1).map
        fun r => (r, (pass_gates r cfg).2) := by
  induction rows with
  | nil => rfl
  | cons a l ih =>
    by_cases h : (pass_gates a cfg).1 <;>
      simp [List.filterMap_cons, List.filter_cons, h, ih]

/-- Score-descending comparator on bare scores. -/
def qDesc (x y : ℚ) : Bool := decide (y ≤ x)

theorem qDesc_trans (a b c : ℚ) :
    qDesc a b = true → qDesc b c = true → qDesc a c = true := by
  unfold qDesc
  intro h1 h2
  rw [decide_eq_true_eq] at *
  linarith

theorem qDesc_total (a b : ℚ) : (qDesc a b || qDesc b a) = true := by
  unfold qDesc
  rcases le_total b a with h | h <;> simp [h]

/-- C2: one funnel pass returns at most `target` ranked candidates; the
ranked list is exactly the gate-passers stable-sorted by score descending
and truncated to `target` (conjunct 2, with conjunct 6 making the
stability — ties keep input order — explicit); ranks are `1..N` over that
list; each ranked item carries the score of its candidate, and the carried
scores are non-increasing; the rejected list is exactly the gate-failers,
in input order, each with its reject reason. -/
theorem run_once_claim (rows : List Candidate) (cfg : GateConfig) (target : ℕ)
    (tps fdvTs : List ℚ) :
    (run_once rows cfg target tps fdvTs).1.length ≤ target ∧
    (run_once rows cfg target tps fdvTs).1.map RankedItem.cand =
      ((passers rows cfg).mergeSort scoreDescC).take target ∧
    (run_once rows cfg target tps fdvTs).1.map RankedItem.rank =
      List.range' 1 (run_once rows cfg target tps fdvTs).1.length ∧
    (run_once rows cfg target tps fdvTs).1.map RankedItem.score =
      ((run_once rows cfg target tps fdvTs).1.map RankedItem.cand).map score ∧
    ((run_once rows cfg target tps fdvTs).1.map RankedItem.score).Pairwise
      (fun a b => b ≤ a) ∧
    (∀ q : ℚ, ((passers rows cfg).mergeSort scoreDescC).filter
        (fun r => decide (score r = q)) =
      (passers rows cfg).filter (fun r => decide (score r = q))) ∧
    (run_once rows cfg target tps fdvTs).2 =
      (rows.filter fun r => !(pass_gates r cfg).1).map
        fun r => (r, (pass_gates r cfg).2) := by
  have hitems_score := items_score rows cfg tps fdvTs
  set items : List ScoredItem := rows.filterMap (fun r =>
    if (pass_gates r cfg).1 then
      some (⟨r, score r, add_exit_prices r tps fdvTs⟩ : ScoredItem)
    else none) with hitems
  set sorted : List ScoredItem := (items.mergeSort scoreDesc).take target with hsorted
  have hfst : (run_once rows cfg target tps fdvTs).1 =
      sorted.enum.map (fun p =>
        (⟨p.2.cand, p.2.score, p.2.exits, p.1 + 1⟩ : RankedItem)) := rfl
  have hsnd : (run_once rows cfg target tps fdvTs).2 =
      rows.filterMap (fun r =>
        if (pass_gates r cfg).1 then none else some (r, (pass_gates r cfg).2)) := rfl
  have hlen1 : (run_once rows cfg target tps fdvTs).1.length = sorted.length := by
    rw [hfst, List.length_map, List.enum_length]
  have hmapcand : (run_once rows cfg target tps fdvTs).1.map RankedItem.cand =
      sorted.map ScoredItem.cand := by
    rw [hfst, List.map_map]
    have hco : (RankedItem.cand ∘ fun p : ℕ × ScoredItem =>
        (⟨p.2.cand, p.2.score, p.2.exits, p.1 + 1⟩ : RankedItem)) =
        ScoredItem.cand ∘ Prod.snd := rfl
    rw [hco, ← List.map_map, List.enum_map_snd]
  have hcondA : ∀ a ∈ items, ∀ b ∈ items,
      scoreDesc a b = scoreDescC a.cand b.cand := by
    intro a ha b hb
    unfold scoreDesc scoreDescC
    rw [hitems_score a ha, hitems_score b hb]
  have c2 : (run_once rows cfg target tps fdvTs).1.map RankedItem.cand =
      ((passers rows cfg).mergeSort scoreDescC).take target := by
    rw [hmapcand, hsorted, List.map_take]
    congr 1
    rw [List.map_mergeSort hcondA, hitems, items_map_cand]
  have c1 : (run_once rows cfg target tps fdvTs).1.length ≤ target := by
    rw [hlen1, hsorted, List.length_take]
    exact min_le_left _ _
  have c3 : (run_once rows cfg target tps fdvTs).1.map RankedItem.rank =
      List.range' 1 (run_once rows cfg target tps fdvTs).1.length := by
    rw [hlen1, hfst, List.map_map]
    have hco : (RankedItem.rank ∘ fun p : ℕ × ScoredItem =>
        (⟨p.2.cand, p.2.score, p.2.exits, p.1 + 1⟩ : RankedItem)) =
        (fun n => n + 1) ∘ Prod.fst := rfl
    rw [hco, ← List.map_map, List.enum_map_fst]
    rw [List.range'_eq_map_range]
    apply List.map_congr_left
    intro a _
    omega
  have hscoreR : ∀ x ∈ (run_once rows cfg target tps fdvTs).1,
      RankedItem.score x = score (RankedItem.cand x) := by
    intro x hx
    rw [hfst] at hx
    rcases List.mem_map.1 hx with ⟨p, hp, rfl⟩
    have h2 : p.2 ∈ sorted := by
      have h3 := List.mem_map_of_mem Prod.snd hp
      rwa [List.enum_map_snd] at h3
    have h4 : p.2 ∈ items := by
      rw [hsorted] at h2
      have h5 : p.2 ∈ items.mergeSort scoreDesc := (List.take_sublist _ _).subset h2
      exact (List.mergeSort_perm items scoreDesc).subset h5
    exact hitems_score _ h4
  have c4 : (run_once rows cfg target tps fdvTs).1.map RankedItem.score =
      ((run_once rows cfg target tps fdvTs).1.map RankedItem.cand).map score := by
    rw [List.map_map]
    exact List.map_congr_left hscoreR
  have hcondB : ∀ a ∈ passers rows cfg, ∀ b ∈ passers rows cfg,
      scoreDescC a b = qDesc (score a) (score b) := by
    intro a _ b _
    rfl
  have c5 : ((run_once rows cfg target tps fdvTs).1.map RankedItem.score).Pairwise
      (fun a b => b ≤ a) := by
    rw [c4, c2, List.map_take]
    apply List.Pairwise.sublist (List.take_sublist _ _)
    rw [List.map_mergeSort hcondB]
    exact (List.sorted_mergeSort qDesc_trans qDesc_total
      ((passers rows cfg).map score)).imp (fun h => of_decide_eq_true h)
  have c6 : ∀ q : ℚ, ((passers rows cfg).mergeSort scoreDescC).filter
      (fun r => decide (score r = q)) =
      (passers rows cfg).filter (fun r => decide (score r = q)) := by
    intro q
    have hall : ∀ x ∈ (passers rows cfg).filter (fun r => decide (score r = q)),
        score x = q := by
      intro x hx
      have h9 := List.of_mem_filter hx
      simp only [decide_eq_true_eq] at h9
      exact h9
    have hpw : ((passers rows cfg).filter
        (fun r => decide (score r = q))).Pairwise
        (fun a b => scoreDescC a b = true) := by
      apply List.pairwise_of_forall_mem_list
      intro a ha b hb
      unfold scoreDescC
      rw [hall a ha, hall b hb]
      simp
    have hsub : ((passers rows cfg).filter
        (fun r => decide (score r = q))).Sublist
        ((passers rows cfg).mergeSort scoreDescC) :=
      List.sublist_mergeSort scoreDescC_trans scoreDescC_total hpw
        (List.filter_sublist _)
    have hcf : ((passers rows cfg).filter
        (fun r => decide (score r = q))).filter (fun r => decide (score r = q)) =
        (passers rows cfg).filter (fun r => decide (score r = q)) := by
      rw [List.filter_eq_self]
      intro x hx
      simpa using List.of_mem_filter hx
    have hsub2 : ((passers rows cfg).filter
        (fun r => decide (score r = q))).Sublist
        (((passers rows cfg).mergeSort scoreDescC).filter
          (fun r => decide (score r = q))) := by
      have h6 := hsub.filter (fun r => decide (score r = q))
      rwa [hcf] at h6
    have hperm : (((passers rows cfg).mergeSort scoreDescC).filter
        (fun r => decide (score r = q))).Perm
        ((passers rows cfg).filter (fun r => decide (score r = q))) :=
      (List.mergeSort_perm _ _).filter _
    exact (List.Sublist.eq_of_length hsub2 hperm.length_eq.symm).symm
  have c7 : (run_once rows cfg target tps fdvTs).2 =
      (rows.filter fun r => !(pass_gates r cfg).1).map
        fun r => (r, (pass_gates r cfg).2) := by
    rw [hsnd, rejects_eq]
  exact ⟨c1, c2, c3, c4, c5, c6, c7⟩

/-! ### Normalizer safety (claim C9) -/

/-- A JSON value that Python's `float(v or 0)` (or a truthiness-guarded
`float(v)`) handles without raising: absent, numeric, or a string that is
empty (falsy) or parses as a float. -/
def numSafe (v : PyVal) : Prop :=
  match v with
  | .null => True
  | .num _ => True
  | .str s p => s = "" ∨ p.isSome

/-- A JSON value that `int(d.get(k, 0))` handles without raising: absent,
numeric, or an integer-valued string. -/
def intSafe (v : PyVal) : Prop :=
  match v with
  | .null => True
  | .num _ => True
  | .str _ p => ∃ q, p = some q ∧ q.den = 1

theorem pyFloat_ok_of_truthy (v : PyVal) (h : numSafe v) (ht : truthy v = true) :
    ∃ q, pyFloat v = .ok q := by
  cases v with
  | null => cases ht
  | num q => exact ⟨q, rfl⟩
  | str s p =>
    rcases h with h | h
    · rw [truthy, h] at ht
      simp at ht
    · rcases Option.isSome_iff_exists.1 h with ⟨q, rfl⟩
      exact ⟨q, rfl⟩

theorem pyFloatOrZero_ok (v : PyVal) (h : numSafe v) :
    ∃ q, pyFloatOrZero v = .ok q := by
  unfold pyFloatOrZero
  by_cases ht : truthy v = true
  · rw [if_pos ht]
    exact pyFloat_ok_of_truthy v h ht
  · rw [if_neg ht]
    exact ⟨0, rfl⟩

theorem pyIntDefault0_ok (v : PyVal) (h : intSafe v) :
    ∃ n, pyIntDefault0 v = .ok n := by
  cases v with
  | null => exact ⟨0, rfl⟩
  | num q => exact ⟨if 0 ≤ q then ⌊q⌋ else ⌈q⌉, rfl⟩
  | str s p =>
    rcases h with ⟨q, rfl, hd⟩
    exact ⟨q.num, by simp [pyIntDefault0, pyInt, hd]⟩

theorem chgOf_ok (v : PyVal) (h : numSafe v) : ∃ c, chgOf v = .ok c := by
  cases v with
  | null => exact ⟨none, rfl⟩
  | num q => exact ⟨some q, rfl⟩
  | str s p =>
    by_cases hse : s = ""
    · exact ⟨none, by simp [chgOf, hse]⟩
    · rcases h with h | h
      · exact absurd h hse
      · rcases Option.isSome_iff_exists.1 h with ⟨q, rfl⟩
        exact ⟨some q, by simp [chgOf, hse, pyFloat, Except.map]⟩

theorem pick_created_ms_ok (p : RawPair)
    (h1 : numSafe p.pairCreatedAt) (h2 : numSafe p.createdAt)
    (h3 : numSafe p.info_createdAt) (h4 : numSafe p.info_listedAt)
    (h5 : numSafe p.liq_createdAt) :
    ∃ o, pick_created_ms p = .ok o := by
  unfold pick_created_ms
  split_ifs with t1 t2 t3 t4 t5
  · rcases pyFloat_ok_of_truthy _ h1 t1 with ⟨q, hq⟩
    exact ⟨some q, by rw [hq]; rfl⟩
  · rcases pyFloat_ok_of_truthy _ h2 t2 with ⟨q, hq⟩
    exact ⟨some q, by rw [hq]; rfl⟩
  · rcases pyFloat_ok_of_truthy _ h3 t3 with ⟨q, hq⟩
    exact ⟨some q, by rw [hq]; rfl⟩
  · rcases pyFloat_ok_of_truthy _ h4 t4 with ⟨q, hq⟩
    exact ⟨some q, by rw [hq]; rfl⟩
  · rcases pyFloat_ok_of_truthy _ h5 t5 with ⟨q, hq⟩
    exact ⟨some q, by rw [hq]; rfl⟩
  · exact ⟨none, rfl⟩

theorem except_ok_bind {α β : Type} (a : α) (f : α → Except Unit β) :
    ((Except.ok a : Except Unit α) >>= f) = f a := rfl

/-- The all-absent raw pair with a non-numeric string in `priceUsd`. -/
def badRawPair : RawPair := { emptyRawPair with priceUsd := .str "oops" none }

/-- C9 counterexample: a structurally-present, malformed (non-numeric
string) `priceUsd` does not default to 0 — Python's `float("oops")`
raises, and the error propagates out of `row_from_pair`. -/
theorem row_from_pair_counterexample :
    row_from_pair 0 badRawPair = .error () := rfl

/-- C9 amended: normalization never raises on inputs whose numeric fields
are absent, falsy, numeric, or numeric strings (and integer strings for
the trade counts) — but a non-numeric string in a numeric field raises
(see the counterexample); the all-absent snapshot normalizes to the
all-default candidate (numerics 0, age/chg null, strings empty); and an
empty input pool yields empty ranked and rejected tables. -/
theorem row_from_pair_claim :
    (∀ (now_ms : ℚ) (p : RawPair),
      numSafe p.priceUsd → numSafe p.fdv → numSafe p.liq_usd →
      numSafe p.vol_h24 → numSafe p.chg_h24 → intSafe p.txns_buys →
      intSafe p.txns_sells → numSafe p.pairCreatedAt → numSafe p.createdAt →
      numSafe p.info_createdAt → numSafe p.info_listedAt →
      numSafe p.liq_createdAt →
      ∃ c, row_from_pair now_ms p = .ok c) ∧
    row_from_pair 0 emptyRawPair = .ok
      { token_symbol := "", chain := "", contract_address := none,
        pair_address := none, price_usd := 0, fdv_usd := 0, lp_usd := 0,
        volume_24h_usd := 0, unique_traders_24h := 0, buys_24h := 0,
        sells_24h := 0, chg24_pct := none, dex := "DEX", trade_url := "",
        explorer_url := "", twitter_url := "", telegram_url := "",
        website_url := "", age_hours := none } ∧
    (∀ (cfg : GateConfig) (t : ℕ) (tps fdvTs : List ℚ),
      run_once [] cfg t tps fdvTs = ([], [])) := by
  refine ⟨?_, by rfl, ?_⟩
  · intro now p h1 h2 h3 h4 h5 h6 h7 h8 h9 h10 h11 h12
    rcases pyIntDefault0_ok _ h6 with ⟨buys, hb⟩
    rcases pyIntDefault0_ok _ h7 with ⟨sells, hs⟩
    rcases pick_created_ms_ok p h8 h9 h10 h11 h12 with ⟨ms, hm⟩
    rcases pyFloatOrZero_ok _ h1 with ⟨price, hp⟩
    rcases pyFloatOrZero_ok _ h2 with ⟨fdv, hf⟩
    rcases pyFloatOrZero_ok _ h3 with ⟨lp, hl⟩
    rcases pyFloatOrZero_ok _ h4 with ⟨vol, hv⟩
    rcases chgOf_ok _ h5 with ⟨chg, hc⟩
    refine ⟨?_, ?_⟩
    · exact
        { token_symbol := p.base_symbol.getD "",
          chain := p.chainId.getD "",
          contract_address := p.base_address,
          pair_address := p.pairAddress,
          price_usd := price,
          fdv_usd := fdv,
          lp_usd := lp,
          volume_24h_usd := vol,
          unique_traders_24h := buys + sells,
          buys_24h := buys,
          sells_24h := sells,
          chg24_pct := chg,
          dex := dex_name p.dexId p.chainId,
          trade_url := p.url.getD "",
          explorer_url := explorer_url p.chainId p.base_address,
          twitter_url := (socialsOf p.info_socials).1,
          telegram_url := (socialsOf p.info_socials).2,
          website_url := p.info_websites.headD "",
          age_hours := (age_hours_from_ms now ms).map (pyRound 2) }
    · unfold row_from_pair
      rw [hb, except_ok_bind, hs, except_ok_bind, hm, except_ok_bind,
        hp, except_ok_bind, hf, except_ok_bind, hl, except_ok_bind,
        hv, except_ok_bind, hc, except_ok_bind]
  · intro cfg t tps fdvTs
    simp [run_once]

/-- Witness for `row_from_pair_claim` at the all-absent raw pair. -/
theorem row_from_pair_claim_witness :
    ∃ c, row_from_pair 0 emptyRawPair = .ok c :=
  row_from_pair_claim.1 0 emptyRawPair trivial trivial trivial trivial
    trivial trivial trivial trivial trivial trivial trivial trivial

/-! ### Two-stage orchestration (claim C10) -/

/-- C10: the funnel runs discovery over the full pool with the discovery
config and target; then runs refine — with the refine config and target —
over the discovery ranked output when it is non-empty, and over the full
pool when it is empty. -/
theorem run_funnel_claim (rows : List Candidate) (disc_cfg ref_cfg : GateConfig)
    (td tr : ℕ) (tps fdvTs : List ℚ) :
    (run_funnel rows disc_cfg ref_cfg td tr tps fdvTs).1 =
      (run_once rows disc_cfg td tps fdvTs).1 ∧
    ((run_once rows disc_cfg td tps fdvTs).1 ≠ [] →
      (run_funnel rows disc_cfg ref_cfg td tr tps fdvTs).2 =
        (run_once ((run_once rows disc_cfg td tps fdvTs).1.map RankedItem.cand)
          ref_cfg tr tps fdvTs).1) ∧
    ((run_once rows disc_cfg td tps fdvTs).1 = [] →
      (run_funnel rows disc_cfg ref_cfg td tr tps fdvTs).2 =
        (run_once rows ref_cfg tr tps fdvTs).1) := by
  refine ⟨rfl, ?_, ?_⟩
  · intro h
    simp only [run_funnel]
    rw [if_neg]
    intro hc
    exact h (List.isEmpty_iff.1 hc)
  · intro h
    simp only [run_funnel]
    rw [if_pos (List.isEmpty_iff.2 h)]

/-- Witness for `run_funnel_claim`: with an empty pool the discovery
output is empty and the refine pass runs over the full (empty) pool. -/
theorem run_funnel_claim_witness :
    (run_funnel [] DISCOVERY REFINE 1 1 [] []).2 = (run_once [] REFINE 1 [] []).1 :=
  (run_funnel_claim [] DISCOVERY REFINE 1 1 [] []).2.2 (by simp [run_once])
